import Mathlib

/-!
Shallow embedding of the receiver wrapper module
(`src/rust/otap-dataflow/crates/engine/src/receiver.rs`) of the
otap-dataflow engine, together with the parts of its collaborators
(bounded mpsc channels, control messages, configuration, test counters)
that the claims need.  Collaborator crates (`otap_df_channel`,
`tokio::sync::mpsc`, `crate::message`, `crate::config`,
`crate::testing`) are not part of the repository snapshot, so their
definitions below are modelled from the specification; the wrapper
itself is translated directly from the source.
-/

/-- Modelled from the spec (missing `otap_df_channel` / `tokio::sync::mpsc`
sources): a bounded queue with a fixed capacity, a FIFO buffer and a flag
recording whether the counterpart endpoint has been dropped (channel
closed). -/
structure Chan (α : Type) where
  capacity : Nat
  queue : List α
  closed : Bool
deriving Repr, DecidableEq

/-- Outcome of a send on a bounded channel.  Modelled from the spec:
send enqueues, suspends the caller when the queue is at capacity
(backpressure, never drops silently), and fails with a closed-channel
error when the consumer is gone. -/
inductive SendOutcome (α : Type) where
  | sent (c : Chan α)
  | suspended
  | closedError
deriving Repr, DecidableEq

/-- Modelled from the spec: enqueue; suspend at capacity; error if the
consumer side has been dropped. -/
def Chan.send (c : Chan α) (x : α) : SendOutcome α :=
  if c.closed then .closedError
  else if c.queue.length < c.capacity then .sent ⟨c.capacity, c.queue ++ [x], c.closed⟩
  else .suspended

/-- Modelled from the spec: dequeue one item if available, `none` when
the queue is currently empty. -/
def Chan.recvOne (c : Chan α) : Option (α × Chan α) :=
  match c.queue with
  | [] => none
  | x :: xs => some (x, ⟨c.capacity, xs, c.closed⟩)

/-- Send a whole list, one message at a time; `none` when a send
suspends or errors before every message is enqueued. -/
def Chan.sendAll (c : Chan α) : List α → Option (Chan α)
  | [] => some c
  | x :: xs =>
    match c.send x with
    | .sent c1 => c1.sendAll xs
    | .suspended => none
    | .closedError => none

/-- Drain the channel by repeated `recvOne` until it reports empty,
collecting the received items in order. -/
def Chan.drainAll (c : Chan α) : List α :=
  match h : c.recvOne with
  | none => []
  | some (x, c1) => x :: c1.drainAll
termination_by c.queue.length
decreasing_by
  simp only [Chan.recvOne] at h
  cases hq : c.queue with
  | nil => rw [hq] at h; simp at h
  | cons y ys =>
    rw [hq] at h
    simp at h
    simp [hq, ← h.2]

/-- Modelled from the spec (`crate::message::ControlMsg` is not in the
snapshot): the closed set of lifecycle control messages — configuration
update with an opaque payload, timer tick, shutdown with a deadline and
a reason, plus an acknowledgment variant. -/
inductive ControlMsg where
  | config (payload : String)
  | timerTick
  | shutdown (deadline : Nat) (reason : String)
  | ack (id : Nat)
deriving Repr, DecidableEq

/-- Modelled from the spec: the predicate a control message exposes,
"is this a shutdown request". -/
def ControlMsg.is_shutdown : ControlMsg → Bool
  | .shutdown _ _ => true
  | _ => false

/-- Sender endpoint of the confined (`!Send`) mpsc channel
(`otap_df_channel::mpsc::Sender`). -/
structure MpscSender (α : Type) where
  chan : Chan α
deriving Repr, DecidableEq

/-- Receiver endpoint of the confined (`!Send`) mpsc channel
(`otap_df_channel::mpsc::Receiver`). -/
structure MpscReceiver (α : Type) where
  chan : Chan α
deriving Repr, DecidableEq

/-- Sender endpoint of the thread-safe channel
(`tokio::sync::mpsc::Sender`). -/
structure TokioSender (α : Type) where
  chan : Chan α
deriving Repr, DecidableEq

/-- Receiver endpoint of the thread-safe channel
(`tokio::sync::mpsc::Receiver`). -/
structure TokioReceiver (α : Type) where
  chan : Chan α
deriving Repr, DecidableEq

/-- Cloning a confined sender hands out another handle onto the same
channel. -/
def MpscSender.clone (s : MpscSender α) : MpscSender α := s

/-- Cloning a shared sender hands out another handle onto the same
channel. -/
def TokioSender.clone (s : TokioSender α) : TokioSender α := s

/-- Modelled from the spec: `otap_df_channel::mpsc::Channel::new`
creates a fresh bounded channel of the given capacity and returns its
two endpoints; construction cannot fail given a valid capacity. -/
def mpscChannelNew (α : Type) (capacity : Nat) : MpscSender α × MpscReceiver α :=
  (⟨⟨capacity, [], false⟩⟩, ⟨⟨capacity, [], false⟩⟩)

/-- Modelled from the spec: `tokio::sync::mpsc::channel` creates a
fresh bounded channel of the given capacity and returns its two
endpoints. -/
def tokioChannelNew (α : Type) (capacity : Nat) : TokioSender α × TokioReceiver α :=
  (⟨⟨capacity, [], false⟩⟩, ⟨⟨capacity, [], false⟩⟩)

/-- The affinity tag of an endpoint or wrapper: confined to one
execution context (`!Send`, the `Local` variant) or freely shareable
(`Send`, the `Shared` variant). -/
inductive Affinity where
  | confined
  | shared
deriving Repr, DecidableEq

/-- The unified sender enum `crate::message::Sender`, a tagged union
over the two channel families. -/
inductive MsgSender (α : Type) where
  | Local (s : MpscSender α)
  | Shared (s : TokioSender α)
deriving Repr, DecidableEq

/-- The unified receiver enum `crate::message::Receiver`, a tagged
union over the two channel families. -/
inductive MsgReceiver (α : Type) where
  | Local (r : MpscReceiver α)
  | Shared (r : TokioReceiver α)
deriving Repr, DecidableEq

/-- Affinity tag carried by a unified sender handle. -/
def MsgSender.affinity : MsgSender α → Affinity
  | .Local _ => .confined
  | .Shared _ => .shared

/-- Affinity tag carried by a unified receiver handle. -/
def MsgReceiver.affinity : MsgReceiver α → Affinity
  | .Local _ => .confined
  | .Shared _ => .shared

/-- Capacity of the channel under a unified receiver handle. -/
def MsgReceiver.capacity : MsgReceiver α → Nat
  | .Local r => r.chan.capacity
  | .Shared r => r.chan.capacity

/-- Modelled from the spec (`crate::error::Error` is not in the
snapshot): the error taxonomy — closed-channel condition on a receive,
resource-acquisition failure, or another receiver-reported failure. -/
inductive EngineError where
  | chanRecvClosed
  | resourceAcquisition (message : String)
  | other (message : String)
deriving Repr, DecidableEq

/-- Result type of a receiver run entry point:
`Result<(), Error<PData>>`. -/
def RunResult : Type := Except EngineError Unit

instance : DecidableEq (Except EngineError Unit) := fun a b =>
  match a, b with
  | .ok (), .ok () => isTrue rfl
  | .error e1, .error e2 =>
    if h : e1 = e2 then isTrue (by rw [h]) else isFalse (by intro hc; cases hc; exact h rfl)
  | .ok (), .error _ => isFalse (by intro hc; cases hc)
  | .error _, .ok () => isFalse (by intro hc; cases hc)

instance : DecidableEq RunResult :=
  inferInstanceAs (DecidableEq (Except EngineError Unit))

/-- The confined control-channel consumer wrapper
(`local::ControlChannel`): wraps a unified receiver handle for control
messages. -/
structure LocalControlChannel where
  receiver : MsgReceiver ControlMsg
deriving Repr, DecidableEq

/-- `local::ControlChannel::new`. -/
def LocalControlChannel.new (r : MsgReceiver ControlMsg) : LocalControlChannel := ⟨r⟩

/-- The shared control-channel consumer wrapper
(`shared::ControlChannel`): wraps a thread-safe receiver handle for
control messages. -/
structure SharedControlChannel where
  receiver : TokioReceiver ControlMsg
deriving Repr, DecidableEq

/-- `shared::ControlChannel::new`. -/
def SharedControlChannel.new (r : TokioReceiver ControlMsg) : SharedControlChannel := ⟨r⟩

/-- The confined effect handler (`local::EffectHandler`): a receiver
name together with the data-channel producer handle. -/
structure LocalEffectHandler (PData : Type) where
  name : String
  msg_sender : MsgSender PData

/-- `local::EffectHandler::new`. -/
def LocalEffectHandler.new (name : String) (s : MsgSender PData) : LocalEffectHandler PData :=
  ⟨name, s⟩

/-- The shared effect handler (`shared::EffectHandler`): a receiver
name together with the thread-safe data-channel producer handle. -/
structure SharedEffectHandler (PData : Type) where
  name : String
  msg_sender : TokioSender PData

/-- `shared::EffectHandler::new`. -/
def SharedEffectHandler.new (name : String) (s : TokioSender PData) : SharedEffectHandler PData :=
  ⟨name, s⟩

/-- The confined receiver capability (`local::Receiver<PData>` trait
object): its run entry point, taking ownership of a control-channel
consumer and an effect handler. -/
structure LocalReceiverT (PData : Type) where
  start : LocalControlChannel → LocalEffectHandler PData → RunResult

/-- The shareable receiver capability (`shared::Receiver<PData>` trait
object). -/
structure SharedReceiverT (PData : Type) where
  start : SharedControlChannel → SharedEffectHandler PData → RunResult

/-- Modelled from the spec (`crate::config` is not in the snapshot):
capacity of one channel, fixed at construction. -/
structure ChannelConfig where
  capacity : Nat
deriving Repr, DecidableEq

/-- Modelled from the spec: construction-time receiver configuration —
display name, control-channel capacity, data-channel capacity. -/
structure ReceiverConfig where
  name : String
  control_channel : ChannelConfig
  output_pdata_channel : ChannelConfig
deriving Repr, DecidableEq

/-- The receiver wrapper (`ReceiverWrapper<PData>`): a tagged union
over the two affinity variants, each owning the receiver instance, the
effect handler, both control-channel endpoints and the optional
data-channel consumer slot. -/
inductive ReceiverWrapper (PData : Type) where
  | Local
      (receiver : LocalReceiverT PData)
      (effect_handler : LocalEffectHandler PData)
      (control_sender : MpscSender ControlMsg)
      (control_receiver : MpscReceiver ControlMsg)
      (pdata_receiver : Option (MsgReceiver PData))
  | Shared
      (receiver : SharedReceiverT PData)
      (effect_handler : SharedEffectHandler PData)
      (control_sender : TokioSender ControlMsg)
      (control_receiver : TokioReceiver ControlMsg)
      (pdata_receiver : Option (TokioReceiver PData))

/-- `ReceiverWrapper::local`: builds the confined control and data
channels from the configured capacities, wraps the receiver and tags
the instance as `Local`. -/
def ReceiverWrapper.localNew (receiver : LocalReceiverT PData) (config : ReceiverConfig) :
    ReceiverWrapper PData :=
  let cc := mpscChannelNew ControlMsg config.control_channel.capacity
  let pc := mpscChannelNew PData config.output_pdata_channel.capacity
  ReceiverWrapper.Local
    receiver
    (LocalEffectHandler.new config.name (MsgSender.Local pc.1))
    cc.1
    cc.2
    (some (MsgReceiver.Local pc.2))

/-- `ReceiverWrapper::shared`: identical contract with thread-safe
channel primitives, tagged as `Shared`. -/
def ReceiverWrapper.sharedNew (receiver : SharedReceiverT PData) (config : ReceiverConfig) :
    ReceiverWrapper PData :=
  let cc := tokioChannelNew ControlMsg config.control_channel.capacity
  let pc := tokioChannelNew PData config.output_pdata_channel.capacity
  ReceiverWrapper.Shared
    receiver
    (SharedEffectHandler.new config.name pc.1)
    cc.1
    cc.2
    (some pc.2)

/-- `ReceiverWrapper::control_sender`: returns a clone of the stored
control-channel producer, tagged with the wrapper's variant. -/
def ReceiverWrapper.control_sender : ReceiverWrapper PData → MsgSender ControlMsg
  | .Local _ _ cs _ _ => MsgSender.Local cs.clone
  | .Shared _ _ cs _ _ => MsgSender.Shared cs.clone

/-- `ReceiverWrapper::start`: consumes the wrapper, builds the
affinity-specific control channel from the stored control receiver and
invokes the receiver's run entry point with it and the stored effect
handler; the remaining fields (control sender, pdata-receiver slot) are
dropped by the `..` patterns. -/
def ReceiverWrapper.start : ReceiverWrapper PData → RunResult
  | .Local receiver effect_handler _ control_receiver _ =>
    receiver.start (LocalControlChannel.new (MsgReceiver.Local control_receiver)) effect_handler
  | .Shared receiver effect_handler _ control_receiver _ =>
    receiver.start (SharedControlChannel.new control_receiver) effect_handler

/-- `ReceiverWrapper::take_pdata_receiver`: takes the stored `Some`
data-channel consumer, leaving `None` behind; `none` here models the
`expect` panic (a loud precondition violation, no value returned) hit
when the slot is already empty. -/
def ReceiverWrapper.take_pdata_receiver :
    ReceiverWrapper PData → Option (MsgReceiver PData × ReceiverWrapper PData)
  | .Local r eh cs cr pr =>
    match pr with
    | some p => some (p, .Local r eh cs cr none)
    | none => none
  | .Shared r eh cs cr pr =>
    match pr with
    | some p => some (MsgReceiver.Shared p, .Shared r eh cs cr none)
    | none => none

/-- The variant tag of a wrapper. -/
def ReceiverWrapper.affinity : ReceiverWrapper PData → Affinity
  | .Local _ _ _ _ _ => .confined
  | .Shared _ _ _ _ _ => .shared

/-- Whether the data-channel consumer slot is still populated. -/
def ReceiverWrapper.pdataSlotIsSome : ReceiverWrapper PData → Bool
  | .Local _ _ _ _ pr => pr.isSome
  | .Shared _ _ _ _ pr => pr.isSome

/-- Capacity of the control channel held by the wrapper. -/
def ReceiverWrapper.controlCapacity : ReceiverWrapper PData → Nat
  | .Local _ _ cs _ _ => cs.chan.capacity
  | .Shared _ _ cs _ _ => cs.chan.capacity

/-- Capacity of the data channel as seen from the stored consumer
slot, when still populated. -/
def ReceiverWrapper.pdataCapacity : ReceiverWrapper PData → Option Nat
  | .Local _ _ _ _ pr => pr.map (fun p => p.capacity)
  | .Shared _ _ _ _ pr => pr.map (fun p => p.chan.capacity)

/-- Capacity of the data channel as seen from the effect handler's
producer handle. -/
def ReceiverWrapper.effectHandlerDataCapacity : ReceiverWrapper PData → Nat
  | .Local _ eh _ _ _ =>
    match eh.msg_sender with
    | .Local s => s.chan.capacity
    | .Shared s => s.chan.capacity
  | .Shared _ eh _ _ _ => eh.msg_sender.chan.capacity

/-- State-passing view of the borrowing call `wrapper.control_sender()`:
the Rust method takes `&self`, so the wrapper observable after the call
is the wrapper itself, unchanged. -/
def ReceiverWrapper.control_senderCall (w : ReceiverWrapper PData) :
    MsgSender ControlMsg × ReceiverWrapper PData :=
  (w.control_sender, w)

/-- Modelled from the spec: the effect handler's send operation
enqueues the payload onto the data channel, suspending under
backpressure; the channel state is threaded explicitly. -/
def effectHandlerSend (c : Chan PData) (p : PData) : SendOutcome PData := c.send p

/-- Modelled from the spec (`crate::testing::CtrlMsgCounters` is not in
the snapshot): the shared observability counters a receiver loop
updates per control message — timer ticks, data-style acknowledgment
messages, configs and shutdowns (the `(3, 0, 1, 1)` snapshot order). -/
structure CtrlMsgCounters where
  timer_tick_count : Nat
  message_count : Nat
  config_count : Nat
  shutdown_count : Nat
deriving Repr, DecidableEq

/-- Modelled from the spec: `CtrlMsgCounters::update_with` bumps the
counter matching the control message variant. -/
def CtrlMsgCounters.update_with (c : CtrlMsgCounters) : ControlMsg → CtrlMsgCounters
  | .timerTick => { c with timer_tick_count := c.timer_tick_count + 1 }
  | .config _ => { c with config_count := c.config_count + 1 }
  | .shutdown _ _ => { c with shutdown_count := c.shutdown_count + 1 }
  | .ack _ => { c with message_count := c.message_count + 1 }

/-- Result of one control-channel receive: a message, or the
closed-channel signal delivered when all producers are gone. -/
inductive RecvError where
  | closed
deriving Repr, DecidableEq

/-- Outcome of running the test receiver loop on a finite list of
control-channel events: either the loop broke out or returned, or the
event list was exhausted with the loop still waiting on its channels. -/
inductive LoopOutcome where
  | finished (r : Except EngineError Unit)
  | waiting
deriving Repr

instance : DecidableEq LoopOutcome := fun a b =>
  match a, b with
  | .finished r1, .finished r2 =>
    if h : r1 = r2 then isTrue (by rw [h])
    else isFalse (by intro hc; cases hc; exact h rfl)
  | .waiting, .waiting => isTrue rfl
  | .finished _, .waiting => isFalse (by intro hc; cases hc)
  | .waiting, .finished _ => isFalse (by intro hc; cases hc)

/-- The control-plane projection of the `TestReceiver` run loop (both
the `!Send` and the `Send` implementations have identical bodies,
lines 193-253 and 272-330 of the source): each event is one completed
control-channel receive; a closed-channel error is propagated by the
`ctrl_msg?` operator as the run result; otherwise the counters are
updated, a shutdown message breaks the loop with success, and after
each iteration the loop also exits once five timer ticks were
counted.  The TCP-accept and timeout branches of the `select!` touch
neither the counters nor the loop exit conditions and are elided. -/
def testReceiverRun (c : CtrlMsgCounters) :
    List (Except RecvError ControlMsg) → LoopOutcome × CtrlMsgCounters
  | [] => (.waiting, c)
  | e :: rest =>
    match e with
    | .error _ => (.finished (.error EngineError.chanRecvClosed), c)
    | .ok msg =>
      if msg.is_shutdown then (.finished (.ok ()), c.update_with msg)
      else if 5 ≤ (c.update_with msg).timer_tick_count then
        (.finished (.ok ()), c.update_with msg)
      else testReceiverRun (c.update_with msg) rest

theorem testReceiverRun_append (c : CtrlMsgCounters)
    (evs more : List (Except RecvError ControlMsg))
    (h : (testReceiverRun c evs).1 = LoopOutcome.waiting) :
    testReceiverRun c (evs ++ more) = testReceiverRun (testReceiverRun c evs).2 more := by
  induction evs generalizing c with
  | nil => simp [testReceiverRun]
  | cons e rest ih =>
    cases e with
    | error er => simp [testReceiverRun] at h
    | ok msg =>
      by_cases hs : msg.is_shutdown
      · simp [testReceiverRun, hs] at h
      · by_cases ht : 5 ≤ (c.update_with msg).timer_tick_count
        · simp [testReceiverRun, hs, ht] at h
        · simp only [List.cons_append]
          rw [show testReceiverRun c (Except.ok msg :: rest)
              = testReceiverRun (c.update_with msg) rest by
            simp [testReceiverRun, hs, ht]] at h ⊢
          rw [show testReceiverRun c (Except.ok msg :: (rest ++ more))
              = testReceiverRun (c.update_with msg) (rest ++ more) by
            simp [testReceiverRun, hs, ht]]
          exact ih _ h

theorem testReceiverRun_waiting_shutdown_count (c : CtrlMsgCounters)
    (evs : List (Except RecvError ControlMsg))
    (h : (testReceiverRun c evs).1 = LoopOutcome.waiting) :
    (testReceiverRun c evs).2.shutdown_count = c.shutdown_count := by
  induction evs generalizing c with
  | nil => simp [testReceiverRun]
  | cons e rest ih =>
    cases e with
    | error er => simp [testReceiverRun] at h
    | ok msg =>
      by_cases hs : msg.is_shutdown
      · simp [testReceiverRun, hs] at h
      · by_cases ht : 5 ≤ (c.update_with msg).timer_tick_count
        · simp [testReceiverRun, hs, ht] at h
        · rw [show testReceiverRun c (Except.ok msg :: rest)
              = testReceiverRun (c.update_with msg) rest by
            simp [testReceiverRun, hs, ht]] at h ⊢
          rw [ih _ h]
          cases msg with
          | config p => rfl
          | timerTick => rfl
          | shutdown d r => simp [ControlMsg.is_shutdown] at hs
          | ack i => rfl

theorem Chan.drainAll_eq_queue (c : Chan α) : c.drainAll = c.queue := by
  obtain ⟨cap, q, cl⟩ := c
  induction q with
  | nil => rw [Chan.drainAll]; simp [Chan.recvOne]
  | cons x xs ih => rw [Chan.drainAll]; simp [Chan.recvOne, ih]

theorem Chan.sendAll_open_fits (cap : Nat) (q : List α) (xs : List α)
    (h : q.length + xs.length ≤ cap) :
    Chan.sendAll ⟨cap, q, false⟩ xs = some ⟨cap, q ++ xs, false⟩ := by
  induction xs generalizing q with
  | nil => simp [Chan.sendAll]
  | cons x rest ih =>
    have hlt : q.length < cap := by simp at h; omega
    simp only [Chan.sendAll, Chan.send, Bool.false_eq_true, if_false, hlt, if_true, if_pos,
      if_neg]
    rw [ih (q ++ [x]) (by simp at h ⊢; omega)]
    simp

/-- Sending a list of payloads one by one through the effect handler's
send operation. -/
def effectHandlerSendAll (c : Chan PData) : List PData → Option (Chan PData)
  | [] => some c
  | x :: xs =>
    match effectHandlerSend c x with
    | .sent c1 => effectHandlerSendAll c1 xs
    | .suspended => none
    | .closedError => none

theorem effectHandlerSendAll_eq_sendAll (c : Chan PData) (xs : List PData) :
    effectHandlerSendAll c xs = c.sendAll xs := by
  induction xs generalizing c with
  | nil => rfl
  | cons x rest ih =>
    simp only [effectHandlerSendAll, Chan.sendAll, effectHandlerSend]
    cases c.send x with
    | sent c1 => exact ih c1
    | suspended => rfl
    | closedError => rfl

/-- Claim C1: for every wrapper of either affinity variant whose
data-channel consumer slot is still populated — as it is right after
construction — the take operation returns the stored consumer and
leaves `None` behind, and a second call on the resulting wrapper fails
loudly without returning a value (`none` models the `expect` panic).
The last two conjuncts restate this for freshly constructed
wrappers. -/
theorem C1_take_pdata_receiver_at_most_once (PData : Type)
    (rl : LocalReceiverT PData) (ehl : LocalEffectHandler PData)
    (csl : MpscSender ControlMsg) (crl : MpscReceiver ControlMsg)
    (p : MsgReceiver PData)
    (rs : SharedReceiverT PData) (ehs : SharedEffectHandler PData)
    (css : TokioSender ControlMsg) (crs : TokioReceiver ControlMsg)
    (ps : TokioReceiver PData) (config : ReceiverConfig) :
    (ReceiverWrapper.Local rl ehl csl crl (some p)).take_pdata_receiver
        = some (p, ReceiverWrapper.Local rl ehl csl crl none)
    ∧ (ReceiverWrapper.Local rl ehl csl crl none).take_pdata_receiver = none
    ∧ (ReceiverWrapper.Shared rs ehs css crs (some ps)).take_pdata_receiver
        = some (MsgReceiver.Shared ps, ReceiverWrapper.Shared rs ehs css crs none)
    ∧ (ReceiverWrapper.Shared rs ehs css crs none).take_pdata_receiver = none
    ∧ (∃ q w1, (ReceiverWrapper.localNew rl config).take_pdata_receiver = some (q, w1)
        ∧ w1.take_pdata_receiver = none)
    ∧ (∃ q w1, (ReceiverWrapper.sharedNew rs config).take_pdata_receiver = some (q, w1)
        ∧ w1.take_pdata_receiver = none) :=
  ⟨rfl, rfl, rfl, rfl, ⟨_, _, rfl, rfl⟩, ⟨_, _, rfl, rfl⟩⟩

/-- Claim C2: for every wrapper and every underlying receiver, the
start operation builds the affinity-specific control-channel consumer
from the stored control receiver, invokes the receiver run entry point
with it and the stored effect handler, and returns exactly that
entry point's result. -/
theorem C2_start_returns_receiver_run_result (PData : Type)
    (rl : LocalReceiverT PData) (ehl : LocalEffectHandler PData)
    (csl : MpscSender ControlMsg) (crl : MpscReceiver ControlMsg)
    (prl : Option (MsgReceiver PData))
    (rs : SharedReceiverT PData) (ehs : SharedEffectHandler PData)
    (css : TokioSender ControlMsg) (crs : TokioReceiver ControlMsg)
    (prs : Option (TokioReceiver PData)) :
    (ReceiverWrapper.Local rl ehl csl crl prl).start
        = rl.start (LocalControlChannel.new (MsgReceiver.Local crl)) ehl
    ∧ (ReceiverWrapper.Shared rs ehs css crs prs).start
        = rs.start (SharedControlChannel.new crs) ehs :=
  ⟨rfl, rfl⟩

/-- Claim C3: the variant tag is fixed at construction (confined for
the local constructor, shared for the shared one); the control-sender
accessor returns a handle tagged with the wrapper's own affinity on
every wrapper; taking the data consumer of a constructed wrapper
yields a consumer handle of the same affinity and a wrapper of the
same affinity; and the take operation never changes the variant of
any wrapper. -/
theorem C3_affinity_fixed_and_preserved (PData : Type)
    (rl : LocalReceiverT PData) (rs : SharedReceiverT PData) (config : ReceiverConfig) :
    (ReceiverWrapper.localNew rl config).affinity = Affinity.confined
    ∧ (ReceiverWrapper.sharedNew rs config).affinity = Affinity.shared
    ∧ (∀ w : ReceiverWrapper PData, w.control_sender.affinity = w.affinity)
    ∧ (∃ q w1, (ReceiverWrapper.localNew rl config).take_pdata_receiver = some (q, w1)
        ∧ q.affinity = Affinity.confined ∧ w1.affinity = Affinity.confined)
    ∧ (∃ q w1, (ReceiverWrapper.sharedNew rs config).take_pdata_receiver = some (q, w1)
        ∧ q.affinity = Affinity.shared ∧ w1.affinity = Affinity.shared)
    ∧ (∀ w w1 : ReceiverWrapper PData, ∀ q,
        w.take_pdata_receiver = some (q, w1) → w1.affinity = w.affinity) := by
  refine ⟨rfl, rfl, fun w => by cases w <;> rfl,
    ⟨_, _, rfl, rfl, rfl⟩, ⟨_, _, rfl, rfl, rfl⟩, ?_⟩
  intro w w1 q h
  cases w with
  | Local r eh cs cr pr =>
    cases pr with
    | some p =>
      simp [ReceiverWrapper.take_pdata_receiver] at h
      rw [← h.2]
      rfl
    | none => simp [ReceiverWrapper.take_pdata_receiver] at h
  | Shared r eh cs cr pr =>
    cases pr with
    | some p =>
      simp [ReceiverWrapper.take_pdata_receiver] at h
      rw [← h.2]
      rfl
    | none => simp [ReceiverWrapper.take_pdata_receiver] at h

/-- Witness for C3 at a concrete wrapper: the take operation preserves
the confined variant tag. -/
theorem C3_witness :
    (ReceiverWrapper.Local (⟨fun _ _ => Except.ok ()⟩ : LocalReceiverT Nat)
        (LocalEffectHandler.new "t" (MsgSender.Local ⟨⟨2, [], false⟩⟩))
        ⟨⟨1, [], false⟩⟩ ⟨⟨1, [], false⟩⟩ none).affinity
      = (ReceiverWrapper.Local (⟨fun _ _ => Except.ok ()⟩ : LocalReceiverT Nat)
        (LocalEffectHandler.new "t" (MsgSender.Local ⟨⟨2, [], false⟩⟩))
        ⟨⟨1, [], false⟩⟩ ⟨⟨1, [], false⟩⟩
        (some (MsgReceiver.Local ⟨⟨2, [], false⟩⟩))).affinity :=
  (C3_affinity_fixed_and_preserved Nat ⟨fun _ _ => Except.ok ()⟩ ⟨fun _ _ => Except.ok ()⟩
      ⟨"t", ⟨1⟩, ⟨2⟩⟩).2.2.2.2.2 _ _ _ rfl

/-- Claim C4: with positive configured capacities both constructors
succeed (they are total), tag the wrapper with the matching affinity,
give the control channel the configured control capacity, give the
data channel — seen both from the stored consumer slot and from the
effect handler's producer — the configured data capacity, and leave
the data-consumer slot populated. -/
theorem C4_constructors_succeed_with_capacities (PData : Type)
    (rl : LocalReceiverT PData) (rs : SharedReceiverT PData) (config : ReceiverConfig)
    (hc : 0 < config.control_channel.capacity)
    (hp : 0 < config.output_pdata_channel.capacity) :
    (ReceiverWrapper.localNew rl config).affinity = Affinity.confined
    ∧ (ReceiverWrapper.sharedNew rs config).affinity = Affinity.shared
    ∧ (ReceiverWrapper.localNew rl config).controlCapacity = config.control_channel.capacity
    ∧ (ReceiverWrapper.sharedNew rs config).controlCapacity = config.control_channel.capacity
    ∧ (ReceiverWrapper.localNew rl config).pdataCapacity
        = some config.output_pdata_channel.capacity
    ∧ (ReceiverWrapper.sharedNew rs config).pdataCapacity
        = some config.output_pdata_channel.capacity
    ∧ (ReceiverWrapper.localNew rl config).effectHandlerDataCapacity
        = config.output_pdata_channel.capacity
    ∧ (ReceiverWrapper.sharedNew rs config).effectHandlerDataCapacity
        = config.output_pdata_channel.capacity
    ∧ (ReceiverWrapper.localNew rl config).pdataSlotIsSome = true
    ∧ (ReceiverWrapper.sharedNew rs config).pdataSlotIsSome = true :=
  ⟨rfl, rfl, rfl, rfl, rfl, rfl, rfl, rfl, rfl, rfl⟩

/-- Witness for C4 at a concrete receiver and configuration with
positive capacities. -/
theorem C4_witness :
    (ReceiverWrapper.localNew (⟨fun _ _ => Except.ok ()⟩ : LocalReceiverT Nat)
        ⟨"t", ⟨1⟩, ⟨2⟩⟩).pdataSlotIsSome = true
    ∧ (ReceiverWrapper.sharedNew (⟨fun _ _ => Except.ok ()⟩ : SharedReceiverT Nat)
        ⟨"t", ⟨1⟩, ⟨2⟩⟩).pdataSlotIsSome = true := by
  have h := C4_constructors_succeed_with_capacities Nat ⟨fun _ _ => Except.ok ()⟩
      ⟨fun _ _ => Except.ok ()⟩ ⟨"t", ⟨1⟩, ⟨2⟩⟩ (by decide) (by decide)
  exact ⟨h.2.2.2.2.2.2.2.2.1, h.2.2.2.2.2.2.2.2.2⟩

/-- Claim C5: the control-sender accessor returns a clone of the
stored control-channel producer tagged with the wrapper's affinity; it
borrows the wrapper, so the state-passing view of the call leaves the
wrapper — every field included — unchanged, and any number of repeated
calls return the same handle. -/
theorem C5_control_sender_clone_no_mutation (PData : Type)
    (rl : LocalReceiverT PData) (ehl : LocalEffectHandler PData)
    (csl : MpscSender ControlMsg) (crl : MpscReceiver ControlMsg)
    (prl : Option (MsgReceiver PData))
    (rs : SharedReceiverT PData) (ehs : SharedEffectHandler PData)
    (css : TokioSender ControlMsg) (crs : TokioReceiver ControlMsg)
    (prs : Option (TokioReceiver PData)) :
    (ReceiverWrapper.Local rl ehl csl crl prl).control_sender = MsgSender.Local csl.clone
    ∧ (ReceiverWrapper.Shared rs ehs css crs prs).control_sender
        = MsgSender.Shared css.clone
    ∧ (∀ w : ReceiverWrapper PData, w.control_sender.affinity = w.affinity)
    ∧ (∀ w : ReceiverWrapper PData, w.control_senderCall.2 = w)
    ∧ (∀ w : ReceiverWrapper PData,
        w.control_senderCall.2.control_senderCall.1 = w.control_senderCall.1) :=
  ⟨rfl, rfl, fun w => by cases w <;> rfl, fun w => rfl, fun w => rfl⟩

/-- Claim C6: delivering a shutdown control message to the test
receiver run loop (identical in the two affinity variants), after any
event prefix that leaves the loop still running, terminates the loop
with a success result, and the counters afterwards record exactly one
more shutdown observed. -/
theorem C6_shutdown_terminates_with_success (c : CtrlMsgCounters)
    (evs : List (Except RecvError ControlMsg)) (d : Nat) (r : String)
    (h : (testReceiverRun c evs).1 = LoopOutcome.waiting) :
    (testReceiverRun c (evs ++ [Except.ok (ControlMsg.shutdown d r)])).1
        = LoopOutcome.finished (Except.ok ())
    ∧ (testReceiverRun c (evs ++ [Except.ok (ControlMsg.shutdown d r)])).2.shutdown_count
        = c.shutdown_count + 1 := by
  have hsc := testReceiverRun_waiting_shutdown_count c evs h
  rw [testReceiverRun_append c evs _ h]
  refine ⟨by simp [testReceiverRun, ControlMsg.is_shutdown], ?_⟩
  simp [testReceiverRun, ControlMsg.is_shutdown, CtrlMsgCounters.update_with, hsc]

/-- Witness for C6: one timer tick followed by a shutdown message, on
zeroed counters. -/
theorem C6_witness :
    (testReceiverRun ⟨0, 0, 0, 0⟩
        ([Except.ok ControlMsg.timerTick] ++ [Except.ok (ControlMsg.shutdown 200 "Test")])).1
      = LoopOutcome.finished (Except.ok ())
    ∧ (testReceiverRun ⟨0, 0, 0, 0⟩
        ([Except.ok ControlMsg.timerTick]
          ++ [Except.ok (ControlMsg.shutdown 200 "Test")])).2.shutdown_count
      = CtrlMsgCounters.shutdown_count ⟨0, 0, 0, 0⟩ + 1 :=
  C6_shutdown_terminates_with_success ⟨0, 0, 0, 0⟩ [Except.ok ControlMsg.timerTick]
    200 "Test" (by decide)

/-- Claim C7: payloads sent in sequence through the effect handler's
send operation onto an open data channel with sufficient capacity are
all observable, unmodified and in send order, when the claimed
consumer drains the channel. -/
theorem C7_roundtrip_in_send_order (PData : Type) (capacity : Nat) (xs : List PData)
    (h : xs.length ≤ capacity) :
    ∃ c1 : Chan PData, effectHandlerSendAll ⟨capacity, [], false⟩ xs = some c1
      ∧ c1.drainAll = xs := by
  refine ⟨⟨capacity, xs, false⟩, ?_, Chan.drainAll_eq_queue _⟩
  rw [effectHandlerSendAll_eq_sendAll]
  have hfit := Chan.sendAll_open_fits capacity [] xs (by simpa using h)
  simpa using hfit

/-- Witness for C7: two payloads through a channel of capacity two. -/
theorem C7_witness :
    ∃ c1 : Chan Nat, effectHandlerSendAll ⟨2, [], false⟩ [10, 20] = some c1
      ∧ c1.drainAll = [10, 20] :=
  C7_roundtrip_in_send_order Nat 2 [10, 20] (by decide)

/-- Claim C8 as stated is false at a concrete input: on the
closed-channel signal from the control channel the test receiver run
loop does not terminate cleanly with success; it propagates the
closed-channel error as the run result. -/
theorem C8_counterexample :
    (testReceiverRun ⟨0, 0, 0, 0⟩ [Except.error RecvError.closed]).1
        = LoopOutcome.finished (Except.error EngineError.chanRecvClosed)
    ∧ (testReceiverRun ⟨0, 0, 0, 0⟩ [Except.error RecvError.closed]).1
        ≠ LoopOutcome.finished (Except.ok ()) :=
  ⟨rfl, by decide⟩

/-- Claim C8 (amended): when the receive on the control channel yields
the closed-channel signal, the condition is surfaced as a recoverable
error value rather than a crash, and the run loop terminates
immediately by propagating that error as the run result — it is not
treated as an implicit clean shutdown, and the counters are left
untouched. -/
theorem C8_closed_channel_error_propagated (c : CtrlMsgCounters)
    (rest : List (Except RecvError ControlMsg)) :
    testReceiverRun c (Except.error RecvError.closed :: rest)
      = (LoopOutcome.finished (Except.error EngineError.chanRecvClosed), c) :=
  rfl

/-- Claim C9: a send on a full open data channel is suspended —
neither dropped nor rejected with an error — and as soon as the
consumer drains one item the same send succeeds, enqueuing the payload
at the tail. -/
theorem C9_backpressure_suspend_and_resume (α : Type) (c : Chan α) (x : α)
    (hcl : c.closed = false) (hfull : c.queue.length = c.capacity)
    (hpos : 0 < c.capacity) :
    c.send x = SendOutcome.suspended
    ∧ ∃ y c1, c.recvOne = some (y, c1)
        ∧ ∃ c2, c1.send x = SendOutcome.sent c2 ∧ c2.queue = c1.queue ++ [x] := by
  obtain ⟨cap, q, cl⟩ := c
  simp only at hcl hfull hpos
  subst hcl
  cases q with
  | nil => simp at hfull; omega
  | cons y ys =>
    refine ⟨?_, y, ⟨cap, ys, false⟩, rfl, ⟨cap, ys ++ [x], false⟩, ?_, rfl⟩
    · simp [Chan.send, hfull]
    · have hlt : ys.length < cap := by simp at hfull; omega
      simp [Chan.send, hlt]

/-- Witness for C9: a full capacity-one channel. -/
theorem C9_witness :
    Chan.send ⟨1, [0], false⟩ (1 : Nat) = SendOutcome.suspended
    ∧ ∃ y c1, Chan.recvOne (⟨1, [0], false⟩ : Chan Nat) = some (y, c1)
        ∧ ∃ c2, c1.send 1 = SendOutcome.sent c2 ∧ c2.queue = c1.queue ++ [1] :=
  C9_backpressure_suspend_and_resume Nat ⟨1, [0], false⟩ 1 rfl rfl (by decide)

/-- Claim C10: starting a wrapper whose data-consumer slot was never
taken silently discards the stored slot together with the wrapper's
control-channel producer: the run result depends only on the receiver,
the effect handler and the control receiver, so a populated slot and
any control sender leave it unchanged. -/
theorem C10_start_discards_unclaimed_consumer (PData : Type)
    (rl : LocalReceiverT PData) (ehl : LocalEffectHandler PData)
    (csl csl' : MpscSender ControlMsg) (crl : MpscReceiver ControlMsg)
    (p : MsgReceiver PData)
    (rs : SharedReceiverT PData) (ehs : SharedEffectHandler PData)
    (css css' : TokioSender ControlMsg) (crs : TokioReceiver ControlMsg)
    (ps : TokioReceiver PData) :
    (ReceiverWrapper.Local rl ehl csl crl (some p)).start
        = (ReceiverWrapper.Local rl ehl csl' crl none).start
    ∧ (ReceiverWrapper.Shared rs ehs css crs (some ps)).start
        = (ReceiverWrapper.Shared rs ehs css' crs none).start :=
  ⟨rfl, rfl⟩
